import Mathlib

/-!
Shallow embedding of the AdGen Studio dashboard (src/src/pages/Index.tsx).

The dashboard keeps an in-memory feed of `VideoPost` rows, a user-supplied
`AppSettings` record, and performs list/update/delete calls against an
external data API, a storage upload, and webhook POSTs.  Each handler is
embedded as a pure function from its inputs and the responses of the
external services (passed in as oracle arguments) to a result record that
lists the network calls issued, the user notifications shown, and the new
in-memory state.  JavaScript string truthiness (`""` is falsy) is modelled
explicitly.
-/

namespace AdGen

/-- A row of the video feed, after `interface VideoPost` in Index.tsx.
The database column `id` is numeric (types.ts: `id: number`), so it is
embedded as `Nat`; the handlers only compare ids for equality and order. -/
structure VideoPost where
  id : Nat
  video_url : Option String
  post_title : String
  caption : String
  hashtag : Option String
  youtube_post_status : String
  instagram_post_status : String
  facebook_post_status : String
deriving DecidableEq

/-- User-supplied configuration, after `interface AppSettings`. -/
structure AppSettings where
  supabaseUrl : String
  supabaseKey : String
  n8nGenerateWebhook : String
  n8nPostWebhook : String
  tableName : String
deriving DecidableEq

/-- The two fields `updateVideoField` may patch: `'post_title' | 'caption'`. -/
inductive UpdatableField where
  | post_title
  | caption
deriving DecidableEq

/-- Read one of the two editable fields of a row. -/
def VideoPost.getField (v : VideoPost) : UpdatableField → String
  | .post_title => v.post_title
  | .caption => v.caption

/-- Patch one of the two editable fields of a row, as the spread
`{ ...v, [field]: value }` does. -/
def VideoPost.setField (v : VideoPost) : UpdatableField → String → VideoPost
  | .post_title, s => { v with post_title := s }
  | .caption, s => { v with caption := s }

/-- A toast shown by `showNotification`. -/
inductive Notification where
  | success (msg : String)
  | error (msg : String)
deriving DecidableEq

/-- The three creation tabs: `'reels' | 'product' | 'ugc'`. -/
inductive TabType where
  | reels
  | product
  | ugc
deriving DecidableEq

/-- String form of a tab, as interpolated into the storage file name. -/
def tabName : TabType → String
  | .reels => "reels"
  | .product => "product"
  | .ugc => "ugc"

/-- Aspect ratio choice: `'Portrait' | 'Landscape'`. -/
inductive AspectRatio where
  | portrait
  | landscape
deriving DecidableEq

/-- String form as held in state and put in the payload. -/
def ratioName : AspectRatio → String
  | .portrait => "Portrait"
  | .landscape => "Landscape"

/-- Name and MIME type of a selected `File`. -/
structure FileMeta where
  name : String
  type : String
deriving DecidableEq

/-- JavaScript `a || b` on strings: the empty string is falsy. -/
def jsOrElse (a b : String) : String :=
  if a = "" then b else a

/-- JavaScript truthiness of a nullable string: non-null and non-empty. -/
def jsTruthy : Option String → Bool
  | none => false
  | some s => ! (s = "")

/-- Network calls a handler can issue, recorded for the frame properties. -/
inductive NetworkCall where
  | select (table : String) (orderKey : String) (ascending : Bool)
  | update (table : String) (id : Nat) (field : UpdatableField) (value : String)
  | deleteRow (table : String) (id : Nat)
  | storageUpload (bucket : String) (path : String)
  | webhookPublish (url : String) (video : VideoPost)
  | webhookCreate (url : String)
deriving DecidableEq

/-- Result of a feed operation: new in-memory feed, calls issued, toasts. -/
structure OpResult where
  videos : List VideoPost
  calls : List NetworkCall
  notes : List Notification
deriving DecidableEq

/-- Embedding of `getSupabase`: returns `none` when URL or key is falsy
(`!settings.supabaseUrl || !settings.supabaseKey`), otherwise a client
handle; `createClient` itself never fails, so the handle is a unit. -/
def getSupabase (s : AppSettings) : Option Unit :=
  if s.supabaseUrl = "" ∨ s.supabaseKey = "" then none else some ()

/-- The error message `fetchVideos` builds on a non-success response. -/
def fetchErrorMessage (dbMsg tableName : String) : String :=
  "Database error: " ++ dbMsg ++ ". Check table name \"" ++ tableName ++
    "\" and RLS policies."

/-- The success toast of `fetchVideos`. -/
def loadedMessage (n : Nat) : String :=
  "Loaded " ++ toString n ++ " video(s)"

/-- Embedding of `fetchVideos`.  The data API response is the oracle
`resp`: `.error m` for a supabase error with message `m`, `.ok data` for
a success returning `data`. -/
def fetchVideos (s : AppSettings) (videos : List VideoPost)
    (resp : Except String (List VideoPost)) : OpResult :=
  match getSupabase s with
  | none =>
      { videos := videos, calls := [],
        notes := [.error "Please configure settings first"] }
  | some _ =>
      match resp with
      | .error m =>
          { videos := videos,
            calls := [.select s.tableName "id" false],
            notes := [.error (fetchErrorMessage m s.tableName)] }
      | .ok data =>
          { videos := data,
            calls := [.select s.tableName "id" false],
            notes := if 0 < data.length then [.success (loadedMessage data.length)] else [] }

/-- Embedding of `updateVideoField`.  `resp = some m` models the update
call returning an error with message `m`; `resp = none` models success.
When unconfigured the handler returns silently (`if (!supabase) return;`). -/
def updateVideoField (s : AppSettings) (videos : List VideoPost)
    (videoId : Nat) (field : UpdatableField) (value : String)
    (resp : Option String) : OpResult :=
  match getSupabase s with
  | none => { videos := videos, calls := [], notes := [] }
  | some _ =>
      match resp with
      | some m =>
          { videos := videos,
            calls := [.update s.tableName videoId field value],
            notes := [.error m] }
      | none =>
          { videos := videos.map (fun v => if v.id = videoId then v.setField field value else v),
            calls := [.update s.tableName videoId field value],
            notes := [.success "Updated successfully"] }

/-- Embedding of `deleteVideo`.  `confirmed` is the answer the user would
give to the `confirm(...)` dialog; `resp` is the delete call oracle as in
`updateVideoField`. -/
def deleteVideo (s : AppSettings) (videos : List VideoPost) (videoId : Nat)
    (confirmed : Bool) (resp : Option String) : OpResult :=
  match getSupabase s with
  | none =>
      { videos := videos, calls := [],
        notes := [.error "Supabase not configured"] }
  | some _ =>
      if confirmed then
        match resp with
        | some m =>
            { videos := videos,
              calls := [.deleteRow s.tableName videoId],
              notes := [.error m] }
        | none =>
            { videos := videos.filter (fun v => ! (v.id = videoId)),
              calls := [.deleteRow s.tableName videoId],
              notes := [.success "Post deleted successfully"] }
      else
        { videos := videos, calls := [], notes := [] }

/-- Whether `pat` occurs at the head of `l` (character lists). -/
def startsWithChars : List Char → List Char → Bool
  | [], _ => true
  | _ :: _, [] => false
  | a :: as, b :: bs => if a = b then startsWithChars as bs else false

/-- Whether `pat` occurs somewhere inside `l` (character lists). -/
def hasSubChars (pat : List Char) : List Char → Bool
  | [] => startsWithChars pat []
  | b :: bs => startsWithChars pat (b :: bs) || hasSubChars pat bs

/-- JavaScript `s.includes(pat)`. -/
def strContains (s pat : String) : Bool :=
  hasSubChars pat.data s.data

/-- JavaScript `s.startsWith(pat)`. -/
def strStartsWith (s pat : String) : Bool :=
  startsWithChars pat.data s.data

/-- Response of a webhook POST as `handlePostToSocials` observes it. -/
structure HttpResponse where
  ok : Bool
  status : Nat
  body : String
deriving DecidableEq

/-- Result of `handlePostToSocials`: calls issued and toasts shown. -/
structure PublishResult where
  calls : List NetworkCall
  notes : List Notification
deriving DecidableEq

/-- Embedding of `handlePostToSocials`: picks the Post webhook, falling
back to the Generate webhook (`n8nPostWebhook || n8nGenerateWebhook`);
with no endpoint it returns with an error toast and no call; otherwise it
POSTs the video and reports success or the fixed failure message. -/
def handlePostToSocials (s : AppSettings) (video : VideoPost)
    (resp : HttpResponse) : PublishResult :=
  let webhookUrl := jsOrElse s.n8nPostWebhook s.n8nGenerateWebhook
  if webhookUrl = "" then
    { calls := [],
      notes := [.error "Please configure at least one n8n webhook in Settings"] }
  else if resp.ok then
    { calls := [.webhookPublish webhookUrl video],
      notes := [.success "Posted to social media successfully!"] }
  else
    { calls := [.webhookPublish webhookUrl video],
      notes := [.error "Failed to post to socials"] }

/-- Transient creation-form state used by `handleSubmit` (upload variant). -/
structure CreateDraft where
  activeTab : TabType
  prompt : String
  file : Option FileMeta
  filePreview : Option String
  productName : String
  productDescription : String
  aspectRatio : AspectRatio
deriving DecidableEq

/-- Outcome of the storage phase, as an oracle: the upload call returned
an error object, some step of the phase threw before the upload call
(e.g. the base64-to-blob conversion), or the upload succeeded. -/
inductive StorageOutcome where
  | uploadError (msg : String)
  | thrownBeforeUpload (msg : String)
  | uploaded
deriving DecidableEq

/-- Outcome of the creation webhook POST, as an oracle: non-success HTTP
status with body, success whose body fails to parse as JSON, or success. -/
inductive WebhookOutcome where
  | httpError (status : Nat) (body : String)
  | parseError (msg : String)
  | ok
deriving DecidableEq

/-- Final state of one submission, after the spec's state machine. -/
inductive SubmitOutcome where
  | notSubmitted
  | success
  | failed (msg : String)
deriving DecidableEq

/-- The JSON payload `handleSubmit` builds for the creation webhook
(metadata fields `timestamp`/`source` omitted as constants of no claim). -/
structure WebhookPayload where
  type : TabType
  post_title : String
  caption : String
  prompt_text : String
  product_name : Option String
  product_description : Option String
  aspect_ratio : AspectRatio
  file_url : Option String
  file_base64 : Option String
  file_name : String
  file_type : String
deriving DecidableEq

/-- Result of `handleSubmit`: calls, toasts, outcome, the payload sent to
the webhook (if dispatch was reached) and whether the form was cleared. -/
structure SubmitResult where
  calls : List NetworkCall
  notes : List Notification
  outcome : SubmitOutcome
  payload : Option WebhookPayload
  formCleared : Bool
deriving DecidableEq

/-- Characters after the last dot of the input (the whole input when it
has no dot), accumulating the current segment in reverse. -/
def fileExtChars : List Char → List Char → List Char
  | acc, [] => acc.reverse
  | acc, c :: cs => if c = '.' then fileExtChars [] cs else fileExtChars (c :: acc) cs

/-- JavaScript `file.name.split('.').pop()`: the last dot-separated
segment of the name. -/
def fileExtOf (name : String) : String :=
  ⟨fileExtChars [] name.data⟩

/-- Public URL the client library resolves for an uploaded object.
Models the external `storage.from('ad-files').getPublicUrl(path)`, which
returns the project URL joined with a fixed public-object route — in
particular a non-empty string. -/
def publicUrlFor (s : AppSettings) (path : String) : String :=
  s.supabaseUrl ++ "/storage/v1/object/public/ad-files/" ++ path

/-- The toast shown when the upload error names a missing bucket. -/
def bucketMissingNote : String :=
  "Storage bucket \"ad-files\" not found. Please run the SQL in supabase-storage-setup.sql file in your Supabase SQL Editor."

/-- The error toast of `handleSubmit` on a non-success webhook status:
`Error: Webhook failed (status): body`. -/
def submitWebhookFailMsg (status : Nat) (body : String) : String :=
  "Error: Webhook failed (" ++ toString status ++ "): " ++ body

/-- Storage phase of `handleSubmit`: returns the resolved file URL (or
`none`), the storage calls issued and the toasts shown.  Entered only
when a file or preview is present; skipped silently when the data client
is unconfigured; on an upload error the handler warns (with a toast only
for a missing bucket) and continues without a URL. -/
def uploadPhase (s : AppSettings) (d : CreateDraft) (timestamp : Nat)
    (storageResp : StorageOutcome) :
    Option String × List NetworkCall × List Notification :=
  if d.file.isSome || jsTruthy d.filePreview then
    match getSupabase s with
    | none => (none, [], [])
    | some _ =>
        let uploadName := match d.file with
          | some f => f.name
          | none => "uploaded-file"
        let filePath := "ads/" ++ (tabName d.activeTab ++ "_" ++ toString timestamp
          ++ "." ++ fileExtOf uploadName)
        match storageResp with
        | .thrownBeforeUpload _ => (none, [], [])
        | .uploadError m =>
            (none, [.storageUpload "ad-files" filePath],
             if strContains m "Bucket not found" then [.error bucketMissingNote] else [])
        | .uploaded =>
            (some (publicUrlFor s filePath), [.storageUpload "ad-files" filePath], [])
  else (none, [], [])

/-- The payload builder of `handleSubmit`, given the resolved file URL. -/
def buildPayload (d : CreateDraft) (fileUrl : Option String) : WebhookPayload :=
  { type := d.activeTab
    post_title := if d.activeTab = .reels then "Update Product Image"
      else jsOrElse d.productName "Ad Campaign"
    caption := d.prompt
    prompt_text := d.prompt
    product_name := if d.productName = "" then none else some d.productName
    product_description := if d.productDescription = "" then none else some d.productDescription
    aspect_ratio := d.aspectRatio
    file_url := fileUrl
    file_base64 := if !jsTruthy fileUrl && jsTruthy d.filePreview then d.filePreview else none
    file_name := jsOrElse (match d.file with | some f => f.name | none => "") "uploaded-file"
    file_type := jsOrElse (match d.file with | some f => f.type | none => "")
      (if (match d.filePreview with
            | some p => strStartsWith p "data:image"
            | none => false)
       then "image/jpeg" else "application/octet-stream") }

/-- Embedding of `handleSubmit` (upload variant): webhook preference
Generate-then-Post, optional storage phase that never aborts, payload
build, webhook POST, and outcome per the response. -/
def handleSubmit (s : AppSettings) (d : CreateDraft) (timestamp : Nat)
    (storageResp : StorageOutcome) (webhookResp : WebhookOutcome) : SubmitResult :=
  let webhookUrl := jsOrElse s.n8nGenerateWebhook s.n8nPostWebhook
  if webhookUrl = "" then
    { calls := [],
      notes := [.error "Please configure at least one n8n webhook in Settings!"],
      outcome := .notSubmitted, payload := none, formCleared := false }
  else
    let up := uploadPhase s d timestamp storageResp
    let payload := buildPayload d up.1
    let calls := up.2.1 ++ [NetworkCall.webhookCreate webhookUrl]
    match webhookResp with
    | .httpError status body =>
        { calls := calls,
          notes := up.2.2 ++ [.error (submitWebhookFailMsg status body)],
          outcome := .failed (submitWebhookFailMsg status body),
          payload := some payload, formCleared := false }
    | .parseError m =>
        { calls := calls,
          notes := up.2.2 ++ [.error ("Error: " ++ m)],
          outcome := .failed ("Error: " ++ m),
          payload := some payload, formCleared := false }
    | .ok =>
        { calls := calls,
          notes := up.2.2 ++
            [.success "Video request submitted! Check dashboard in a few moments."],
          outcome := .success, payload := some payload, formCleared := true }

/-- Per-row edit buffer of the dashboard (`editingFields[videoId]`); each
editable field is buffered independently and may be absent. -/
structure EditBuffer where
  post_title : Option String
  caption : Option String
deriving DecidableEq

/-- Read a buffered field: `editingFields[videoId]?.[field]`. -/
def EditBuffer.get (b : EditBuffer) : UpdatableField → Option String
  | .post_title => b.post_title
  | .caption => b.caption

/-- Embedding of `handleFieldBlur`: returns the `updateVideoField`
invocation it would make, or `none` when it makes no call.  `editing` is
the `editingFields` object as a partial map keyed by video id. -/
def handleFieldBlur (editing : Nat → Option EditBuffer) (videos : List VideoPost)
    (videoId : Nat) (field : UpdatableField) :
    Option (Nat × UpdatableField × String) :=
  let editedValue := (editing videoId).bind (fun b => b.get field)
  let currentVideo := videos.find? (fun v => v.id = videoId)
  match editedValue, currentVideo with
  | some val, some v =>
      if ! (val = v.getField field) then some (videoId, field, val) else none
  | _, _ => none

/-- Descending insertion into a list kept descending by id.  Models the
external data API honouring `.order('id', { ascending: false })`. -/
def insertDesc (v : VideoPost) : List VideoPost → List VideoPost
  | [] => [v]
  | w :: ws => if w.id ≤ v.id then v :: w :: ws else w :: insertDesc v ws

/-- The rows the external data API returns for the select with
`.order('id', { ascending: false })`: the stored rows sorted descending
by id.  Models the external backend, not repository code. -/
def backendSelectDesc : List VideoPost → List VideoPost
  | [] => []
  | v :: vs => insertDesc v (backendSelectDesc vs)

/-- Sample row used to instantiate the theorems on concrete inputs. -/
def sampleVideo : VideoPost :=
  ⟨7, some "https://cdn.example/v7.mp4", "Title", "Caption", none,
    "pending", "pending", "pending"⟩

/-- Sample configured settings used to instantiate the theorems. -/
def sampleSettings : AppSettings :=
  ⟨"https://proj.supabase.co", "anon", "https://n8n.example/gen",
    "https://n8n.example/post", "social_media_videos"⟩

/-- Sample creation draft with a cached preview and no fresh file. -/
def sampleDraft : CreateDraft :=
  ⟨.reels, "make it pop", none, some "data:image/png;base64,AAA", "", "", .portrait⟩

/-- Sample edit-buffer map: only video 7 has a buffered title, equal to
the sample row's current title. -/
def sampleEditing : Nat → Option EditBuffer :=
  fun i => if i = 7 then some ⟨some "Title", none⟩ else none

/-- Relation between an input feed entry and the corresponding output
entry of a successful single-field update: entries with a different id
are untouched, and the entry with the target id changes in exactly the
target field. -/
def patchedEntry (videoId : Nat) (field : UpdatableField) (value : String)
    (v v2 : VideoPost) : Prop :=
  (v.id ≠ videoId → v2 = v) ∧
  (v.id = videoId →
    v2.id = v.id ∧ v2.video_url = v.video_url ∧ v2.hashtag = v.hashtag ∧
    v2.youtube_post_status = v.youtube_post_status ∧
    v2.instagram_post_status = v.instagram_post_status ∧
    v2.facebook_post_status = v.facebook_post_status ∧
    v2.getField field = value ∧
    (∀ g, g ≠ field → v2.getField g = v.getField g))

/-- A pattern starts every list formed by appending a tail to it. -/
theorem startsWithChars_append (t q : List Char) :
    startsWithChars t (t ++ q) = true := by
  induction t with
  | nil => rfl
  | cons a as ih => simp [startsWithChars, ih]

/-- A pattern starts itself. -/
theorem startsWithChars_refl (t : List Char) : startsWithChars t t = true := by
  induction t with
  | nil => rfl
  | cons a as ih => simp [startsWithChars, ih]

/-- A pattern is found in any list that carries it after some head part. -/
theorem hasSubChars_append (p t q : List Char) :
    hasSubChars t (p ++ (t ++ q)) = true := by
  induction p with
  | nil =>
      show hasSubChars t (t ++ q) = true
      cases ht : t ++ q with
      | nil =>
          have : t = [] := by
            cases t with
            | nil => rfl
            | cons a as => simp at ht
          rw [this]
          rfl
      | cons b bs =>
          rw [hasSubChars, ← ht, startsWithChars_append, Bool.true_or]
  | cons a as ih =>
      show hasSubChars t (a :: (as ++ (t ++ q))) = true
      rw [hasSubChars, ih, Bool.or_true]

/-- A pattern found in a suffix is found in the whole. -/
theorem hasSubChars_append_right (pat xs ys : List Char)
    (h : hasSubChars pat ys = true) : hasSubChars pat (xs ++ ys) = true := by
  induction xs with
  | nil => exact h
  | cons a as ih =>
      show hasSubChars pat (a :: (as ++ ys)) = true
      rw [hasSubChars, ih, Bool.or_true]

/-- A pattern is found in itself. -/
theorem hasSubChars_self (t : List Char) : hasSubChars t t = true := by
  cases t with
  | nil => rfl
  | cons a as => rw [hasSubChars, startsWithChars_refl]; rfl

/-- A string contains any middle piece of a three-way concatenation. -/
theorem strContains_cat (p t q : String) : strContains (p ++ t ++ q) t = true := by
  show hasSubChars t.data (p ++ t ++ q).data = true
  rw [String.data_append, String.data_append, List.append_assoc]
  exact hasSubChars_append p.data t.data q.data

/-- A string contains its final piece. -/
theorem strContains_suffix (a t : String) : strContains (a ++ t) t = true := by
  show hasSubChars t.data (a ++ t).data = true
  rw [String.data_append]
  exact hasSubChars_append_right t.data a.data t.data (hasSubChars_self t.data)

/-- Containment in a suffix lifts to the concatenation. -/
theorem strContains_append_right (a b pat : String)
    (h : strContains b pat = true) : strContains (a ++ b) pat = true := by
  show hasSubChars pat.data (a ++ b).data = true
  rw [String.data_append]
  exact hasSubChars_append_right pat.data a.data b.data h

/-- Inserting into a descending-by-id list is a permutation of consing. -/
theorem insertDesc_perm (v : VideoPost) (l : List VideoPost) :
    (insertDesc v l).Perm (v :: l) := by
  induction l with
  | nil => exact List.Perm.refl _
  | cons w ws ih =>
      by_cases h : w.id ≤ v.id
      · rw [insertDesc, if_pos h]
      · rw [insertDesc, if_neg h]
        exact (ih.cons w).trans (List.Perm.swap v w ws)

/-- Inserting into a descending-by-id list keeps it descending. -/
theorem insertDesc_sorted (v : VideoPost) (l : List VideoPost)
    (hl : l.Sorted (fun a b => b.id ≤ a.id)) :
    (insertDesc v l).Sorted (fun a b => b.id ≤ a.id) := by
  induction l with
  | nil => simp [insertDesc]
  | cons w ws ih =>
      rw [List.sorted_cons] at hl
      obtain ⟨hw, hws⟩ := hl
      by_cases h : w.id ≤ v.id
      · rw [insertDesc, if_pos h, List.sorted_cons]
        refine ⟨?_, ?_⟩
        · intro b hb
          cases hb with
          | head => exact h
          | tail _ hb => exact le_trans (hw b hb) h
        · rw [List.sorted_cons]; exact ⟨hw, hws⟩
      · rw [insertDesc, if_neg h, List.sorted_cons]
        refine ⟨?_, ih hws⟩
        intro b hb
        have hb2 : b ∈ v :: ws := (insertDesc_perm v ws).mem_iff.mp hb
        cases hb2 with
        | head => exact le_of_not_le h
        | tail _ hbws => exact hw b hbws

/-- The modelled select result is a permutation of the stored rows. -/
theorem backendSelectDesc_perm (l : List VideoPost) :
    (backendSelectDesc l).Perm l := by
  induction l with
  | nil => exact List.Perm.refl _
  | cons v vs ih =>
      exact (insertDesc_perm v (backendSelectDesc vs)).trans (ih.cons v)

/-- The modelled select result is descending by id. -/
theorem backendSelectDesc_sorted (l : List VideoPost) :
    (backendSelectDesc l).Sorted (fun a b => b.id ≤ a.id) := by
  induction l with
  | nil => simp [backendSelectDesc]
  | cons v vs ih => exact insertDesc_sorted v (backendSelectDesc vs) ih

/-- With pairwise-distinct ids the modelled select result is strictly
descending by id. -/
theorem backendSelectDesc_strict (l : List VideoPost)
    (h : (l.map (fun v => v.id)).Nodup) :
    (backendSelectDesc l).Sorted (fun a b => b.id < a.id) := by
  have hne : l.Pairwise (fun a b => a.id ≠ b.id) := List.pairwise_map.mp h
  have hperm : (backendSelectDesc l).Perm l := backendSelectDesc_perm l
  have hne2 : (backendSelectDesc l).Pairwise (fun a b => a.id ≠ b.id) :=
    (hperm.pairwise_iff (fun {a b} hab => Ne.symm hab)).mpr hne
  have hge : (backendSelectDesc l).Pairwise (fun a b => b.id ≤ a.id) :=
    backendSelectDesc_sorted l
  exact (hge.and hne2).imp (fun hab => lt_of_le_of_ne hab.1 (Ne.symm hab.2))

/-- A null string is falsy. -/
theorem jsTruthy_none : jsTruthy none = false := rfl

/-- Calls of `handleSubmit` on a configured webhook: the storage-phase
calls followed by exactly one webhook POST to the selected endpoint. -/
theorem handleSubmit_calls (s : AppSettings) (d : CreateDraft) (ts : Nat)
    (st : StorageOutcome) (w : WebhookOutcome)
    (h : ¬ jsOrElse s.n8nGenerateWebhook s.n8nPostWebhook = "") :
    (handleSubmit s d ts st w).calls
      = (uploadPhase s d ts st).2.1
        ++ [.webhookCreate (jsOrElse s.n8nGenerateWebhook s.n8nPostWebhook)] := by
  simp only [handleSubmit]
  rw [if_neg h]
  cases w <;> rfl

/-- Payload of `handleSubmit` on a configured webhook. -/
theorem handleSubmit_payload (s : AppSettings) (d : CreateDraft) (ts : Nat)
    (st : StorageOutcome) (w : WebhookOutcome)
    (h : ¬ jsOrElse s.n8nGenerateWebhook s.n8nPostWebhook = "") :
    (handleSubmit s d ts st w).payload
      = some (buildPayload d (uploadPhase s d ts st).1) := by
  simp only [handleSubmit]
  rw [if_neg h]
  cases w <;> rfl

/-- Outcome of `handleSubmit` per webhook response, on a configured
webhook. -/
theorem handleSubmit_outcome (s : AppSettings) (d : CreateDraft) (ts : Nat)
    (st : StorageOutcome) (w : WebhookOutcome)
    (h : ¬ jsOrElse s.n8nGenerateWebhook s.n8nPostWebhook = "") :
    (handleSubmit s d ts st w).outcome
      = match w with
        | .httpError status body => .failed (submitWebhookFailMsg status body)
        | .parseError m => .failed ("Error: " ++ m)
        | .ok => .success := by
  simp only [handleSubmit]
  rw [if_neg h]
  cases w <;> rfl

/-- Every call of the storage phase is a storage upload. -/
theorem uploadPhase_calls_storage (s : AppSettings) (d : CreateDraft) (ts : Nat)
    (st : StorageOutcome) :
    ∀ c ∈ (uploadPhase s d ts st).2.1, ∃ b p, c = NetworkCall.storageUpload b p := by
  intro c hc
  unfold uploadPhase at hc
  split at hc
  · cases hs : getSupabase s with
    | none => rw [hs] at hc; simp at hc
    | some u =>
        rw [hs] at hc
        cases st with
        | uploadError m =>
            simp at hc
            exact ⟨_, _, hc⟩
        | thrownBeforeUpload m => simp at hc
        | uploaded =>
            simp at hc
            exact ⟨_, _, hc⟩
  · simp at hc

/-- A storage phase that did not succeed resolves no file URL. -/
theorem uploadPhase_url_none (s : AppSettings) (d : CreateDraft) (ts : Nat)
    (st : StorageOutcome) (hst : ¬ st = .uploaded) :
    (uploadPhase s d ts st).1 = none := by
  unfold uploadPhase
  split
  · cases hs : getSupabase s with
    | none => rfl
    | some u =>
        cases st with
        | uploadError m => rfl
        | thrownBeforeUpload m => rfl
        | uploaded => exact absurd rfl hst
  · rfl

/-- The storage phase resolves either no URL or a public URL of the
`ad-files` bucket. -/
theorem uploadPhase_url_shape (s : AppSettings) (d : CreateDraft) (ts : Nat)
    (st : StorageOutcome) :
    (uploadPhase s d ts st).1 = none ∨
    ∃ p, (uploadPhase s d ts st).1 = some (publicUrlFor s p) := by
  unfold uploadPhase
  split
  · cases hs : getSupabase s with
    | none => exact Or.inl rfl
    | some u =>
        cases st with
        | uploadError m => exact Or.inl rfl
        | thrownBeforeUpload m => exact Or.inl rfl
        | uploaded => exact Or.inr ⟨_, rfl⟩
  · exact Or.inl rfl

/-- A resolved public URL is never the empty string: it always carries
the fixed public-object route. -/
theorem publicUrlFor_ne_empty (s : AppSettings) (p : String) :
    ¬ publicUrlFor s p = "" := by
  intro h
  have hd : (s.supabaseUrl.data ++ ("/storage/v1/object/public/ad-files/" : String).data)
      ++ p.data = [] := by
    have := congrArg String.data h
    rw [publicUrlFor, String.data_append, String.data_append] at this
    exact this
  have hlit : ("/storage/v1/object/public/ad-files/" : String).data = [] :=
    (List.append_eq_nil.mp (List.append_eq_nil.mp hd).1).2
  exact absurd hlit (by decide)

/-- C1 counterexample: with a blank backend endpoint, `updateVideoField`
short-circuits silently — it issues no network call but also shows no
user-facing error, contradicting the claim that every data operation
fails with a user-facing Unconfigured error. -/
theorem c1_counterexample :
    (updateVideoField ⟨"", "x", "", "", "social_media_videos"⟩ [] 1 .post_title "t" none).notes
        = [] ∧
    (updateVideoField ⟨"", "x", "", "", "social_media_videos"⟩ [] 1 .post_title "t" none).calls
        = [] := by
  decide

/-- C1 (amended): `getSupabase` returns `none` exactly when the endpoint
or the key is blank, and then every data operation issues no network call
and leaves the feed unchanged; `fetchVideos` and `deleteVideo` surface a
user-facing error while `updateVideoField` returns silently. -/
theorem c1_unconfigured_short_circuit (s : AppSettings) (videos : List VideoPost)
    (resp : Except String (List VideoPost)) (videoId : Nat)
    (field : UpdatableField) (value : String) (uresp dresp : Option String)
    (confirmed : Bool) :
    (getSupabase s = none ↔ s.supabaseUrl = "" ∨ s.supabaseKey = "") ∧
    (getSupabase s = none →
      (fetchVideos s videos resp).calls = [] ∧
      (fetchVideos s videos resp).videos = videos ∧
      (fetchVideos s videos resp).notes = [.error "Please configure settings first"] ∧
      (updateVideoField s videos videoId field value uresp).calls = [] ∧
      (updateVideoField s videos videoId field value uresp).videos = videos ∧
      (updateVideoField s videos videoId field value uresp).notes = [] ∧
      (deleteVideo s videos videoId confirmed dresp).calls = [] ∧
      (deleteVideo s videos videoId confirmed dresp).videos = videos ∧
      (deleteVideo s videos videoId confirmed dresp).notes
        = [.error "Supabase not configured"]) := by
  constructor
  · unfold getSupabase
    split <;> simp_all
  · intro h
    simp [fetchVideos, updateVideoField, deleteVideo, h]

/-- C1 witness: the amended theorem applied to blank-endpoint settings. -/
theorem c1_witness :
    getSupabase ⟨"", "x", "", "", "social_media_videos"⟩ = none ∧
    (fetchVideos ⟨"", "x", "", "", "social_media_videos"⟩ [sampleVideo] (.ok [])).calls = [] ∧
    (fetchVideos ⟨"", "x", "", "", "social_media_videos"⟩ [sampleVideo] (.ok [])).videos
      = [sampleVideo] := by
  have h := c1_unconfigured_short_circuit ⟨"", "x", "", "", "social_media_videos"⟩
    [sampleVideo] (.ok []) 1 .post_title "t" none none true
  have hnone : getSupabase ⟨"", "x", "", "", "social_media_videos"⟩ = none :=
    h.1.mpr (Or.inl rfl)
  exact ⟨hnone, (h.2 hnone).1, (h.2 hnone).2.1⟩

/-- C4: with a configured client, a successful single-field update
patches exactly the target field of the entries with the target id and
leaves every other field and entry unchanged; a failed update leaves the
feed unchanged and surfaces the error. -/
theorem c4_update_field_frame (s : AppSettings) (videos : List VideoPost)
    (videoId : Nat) (field : UpdatableField) (value : String) (m : String)
    (hsup : getSupabase s = some ()) :
    (List.Forall₂ (patchedEntry videoId field value) videos
        (updateVideoField s videos videoId field value none).videos ∧
      (updateVideoField s videos videoId field value none).calls
        = [.update s.tableName videoId field value] ∧
      (updateVideoField s videos videoId field value none).notes
        = [.success "Updated successfully"]) ∧
    ((updateVideoField s videos videoId field value (some m)).videos = videos ∧
      (updateVideoField s videos videoId field value (some m)).calls
        = [.update s.tableName videoId field value] ∧
      (updateVideoField s videos videoId field value (some m)).notes = [.error m]) := by
  have hv : (updateVideoField s videos videoId field value none).videos
      = videos.map (fun v => if v.id = videoId then v.setField field value else v) := by
    simp [updateVideoField, hsup]
  refine ⟨⟨?_, ?_, ?_⟩, ?_, ?_, ?_⟩
  · rw [hv, List.forall₂_map_right_iff, List.forall₂_same]
    intro v _
    constructor
    · intro hne
      simp [hne]
    · intro heq
      rw [if_pos heq]
      cases field with
      | post_title =>
          refine ⟨rfl, rfl, rfl, rfl, rfl, rfl, rfl, ?_⟩
          intro g hg
          cases g with
          | post_title => exact absurd rfl hg
          | caption => rfl
      | caption =>
          refine ⟨rfl, rfl, rfl, rfl, rfl, rfl, rfl, ?_⟩
          intro g hg
          cases g with
          | post_title => rfl
          | caption => exact absurd rfl hg
  · simp [updateVideoField, hsup]
  · simp [updateVideoField, hsup]
  · simp [updateVideoField, hsup]
  · simp [updateVideoField, hsup]
  · simp [updateVideoField, hsup]

/-- C4 witness: a concrete successful title update patches only the
matching entry's title and a concrete failed update changes nothing. -/
theorem c4_witness :
    List.Forall₂ (patchedEntry 7 .post_title "New" ) [sampleVideo]
      (updateVideoField sampleSettings [sampleVideo] 7 .post_title "New" none).videos ∧
    (updateVideoField sampleSettings [sampleVideo] 7 .post_title "New" (some "denied")).videos
      = [sampleVideo] := by
  have h := c4_update_field_frame sampleSettings [sampleVideo] 7 .post_title "New" "denied"
    (by decide)
  exact ⟨h.1.1, h.2.1⟩

/-- C5: `deleteVideo` issues no backend call without confirmation and
leaves the feed unchanged; with a configured client and confirmation it
issues exactly one delete call, removes the rows with the target id
exactly when the call succeeds, and on failure keeps the feed and
surfaces the error. -/
theorem c5_delete_confirmation (s : AppSettings) (videos : List VideoPost)
    (videoId : Nat) (confirmed : Bool) (resp : Option String) :
    (confirmed = false → (deleteVideo s videos videoId confirmed resp).calls = [] ∧
      (deleteVideo s videos videoId confirmed resp).videos = videos) ∧
    (getSupabase s = some () → confirmed = true →
      (deleteVideo s videos videoId confirmed resp).calls
        = [.deleteRow s.tableName videoId]) ∧
    (getSupabase s = some () → confirmed = true → resp = none →
      ∀ v, v ∈ (deleteVideo s videos videoId confirmed resp).videos
        ↔ v ∈ videos ∧ v.id ≠ videoId) ∧
    (getSupabase s = some () → ∀ m, resp = some m →
      (deleteVideo s videos videoId confirmed resp).videos = videos ∧
      (confirmed = true →
        (deleteVideo s videos videoId confirmed resp).notes = [.error m])) := by
  refine ⟨?_, ?_, ?_, ?_⟩
  · intro hc
    subst hc
    unfold deleteVideo
    cases hs : getSupabase s <;> simp
  · intro hs hc
    subst hc
    cases resp <;> simp [deleteVideo, hs]
  · intro hs hc hr
    subst hc
    subst hr
    intro v
    simp [deleteVideo, hs]
  · intro hs m hr
    subst hr
    cases confirmed <;> simp [deleteVideo, hs]

/-- C5 witness: declining the dialog issues no call; confirming issues
exactly one delete call on a configured client. -/
theorem c5_witness :
    (deleteVideo sampleSettings [sampleVideo] 7 false none).calls = [] ∧
    (deleteVideo sampleSettings [sampleVideo] 7 true none).calls
      = [.deleteRow "social_media_videos" 7] := by
  refine ⟨((c5_delete_confirmation sampleSettings [sampleVideo] 7 false none).1 rfl).1, ?_⟩
  exact (c5_delete_confirmation sampleSettings [sampleVideo] 7 true none).2.1 (by decide) rfl

/-- C6: a successful `fetchVideos` against the modelled data API (which
honours the requested descending order on `id`) stores a feed that is a
permutation of the stored rows and, when ids are pairwise distinct,
strictly descending by identifier. -/
theorem c6_list_descending (s : AppSettings) (stored videos : List VideoPost)
    (hsup : getSupabase s = some ())
    (hids : (stored.map (fun v => v.id)).Nodup) :
    (fetchVideos s videos (.ok (backendSelectDesc stored))).videos.Perm stored ∧
    List.Sorted (fun a b => b.id < a.id)
      (fetchVideos s videos (.ok (backendSelectDesc stored))).videos := by
  have hv : (fetchVideos s videos (.ok (backendSelectDesc stored))).videos
      = backendSelectDesc stored := by
    simp [fetchVideos, hsup]
  rw [hv]
  exact ⟨backendSelectDesc_perm stored, backendSelectDesc_strict stored hids⟩

/-- C6 witness: a concrete three-row fetch comes back strictly
descending by id. -/
theorem c6_witness :
    List.Sorted (fun a b : VideoPost => b.id < a.id)
      (fetchVideos sampleSettings []
        (.ok (backendSelectDesc
          [⟨1, none, "a", "", none, "", "", ""⟩,
           ⟨3, none, "b", "", none, "", "", ""⟩,
           ⟨2, none, "c", "", none, "", "", ""⟩]))).videos :=
  (c6_list_descending sampleSettings
    [⟨1, none, "a", "", none, "", "", ""⟩,
     ⟨3, none, "b", "", none, "", "", ""⟩,
     ⟨2, none, "c", "", none, "", "", ""⟩] [] (by decide) (by decide)).2

/-- C7: a failed `fetchVideos` on a configured client surfaces a single
error whose message contains the configured table name and the hint to
check the row-level-security policies. -/
theorem c7_fetch_error_message (s : AppSettings) (videos : List VideoPost) (m : String)
    (hsup : getSupabase s = some ()) :
    ∃ msg, (fetchVideos s videos (.error m)).notes = [.error msg] ∧
      strContains msg s.tableName = true ∧
      strContains msg "RLS policies" = true := by
  refine ⟨fetchErrorMessage m s.tableName, ?_, ?_, ?_⟩
  · simp [fetchVideos, hsup]
  · exact strContains_cat ("Database error: " ++ m ++ ". Check table name \"")
      s.tableName "\" and RLS policies."
  · exact strContains_append_right
      ("Database error: " ++ m ++ ". Check table name \"" ++ s.tableName)
      "\" and RLS policies." "RLS policies" (by decide)

/-- C7 witness: a concrete failed fetch names the table and the RLS hint. -/
theorem c7_witness :
    ∃ msg, (fetchVideos sampleSettings [] (.error "permission denied")).notes
        = [.error msg] ∧
      strContains msg "social_media_videos" = true ∧
      strContains msg "RLS policies" = true :=
  c7_fetch_error_message sampleSettings [] "permission denied" (by decide)

/-- C2: the publish action prefers the Post endpoint and falls back to
the Generate endpoint; the creation action prefers the Generate endpoint
and falls back to the Post endpoint; with both endpoints blank either
action fails fast with the no-endpoint error and issues zero network
calls. -/
theorem c2_endpoint_selection (s : AppSettings) (video : VideoPost)
    (resp : HttpResponse) (d : CreateDraft) (ts : Nat)
    (st : StorageOutcome) (w : WebhookOutcome) :
    (¬ s.n8nPostWebhook = "" →
      (handlePostToSocials s video resp).calls
        = [.webhookPublish s.n8nPostWebhook video]) ∧
    (s.n8nPostWebhook = "" → ¬ s.n8nGenerateWebhook = "" →
      (handlePostToSocials s video resp).calls
        = [.webhookPublish s.n8nGenerateWebhook video]) ∧
    (¬ s.n8nGenerateWebhook = "" →
      ∃ pre, (handleSubmit s d ts st w).calls
          = pre ++ [.webhookCreate s.n8nGenerateWebhook] ∧
        ∀ c ∈ pre, ∃ b p, c = NetworkCall.storageUpload b p) ∧
    (s.n8nGenerateWebhook = "" → ¬ s.n8nPostWebhook = "" →
      ∃ pre, (handleSubmit s d ts st w).calls
          = pre ++ [.webhookCreate s.n8nPostWebhook] ∧
        ∀ c ∈ pre, ∃ b p, c = NetworkCall.storageUpload b p) ∧
    (s.n8nPostWebhook = "" → s.n8nGenerateWebhook = "" →
      (handlePostToSocials s video resp).calls = [] ∧
      (handlePostToSocials s video resp).notes
        = [.error "Please configure at least one n8n webhook in Settings"] ∧
      (handleSubmit s d ts st w).calls = [] ∧
      (handleSubmit s d ts st w).outcome = .notSubmitted ∧
      (handleSubmit s d ts st w).notes
        = [.error "Please configure at least one n8n webhook in Settings!"]) := by
  refine ⟨?_, ?_, ?_, ?_, ?_⟩
  · intro hp
    cases hok : resp.ok <;> simp [handlePostToSocials, jsOrElse, hp, hok]
  · intro hp hg
    cases hok : resp.ok <;> simp [handlePostToSocials, jsOrElse, hp, hg, hok]
  · intro hg
    have hsel : jsOrElse s.n8nGenerateWebhook s.n8nPostWebhook = s.n8nGenerateWebhook := by
      simp [jsOrElse, hg]
    refine ⟨(uploadPhase s d ts st).2.1, ?_, uploadPhase_calls_storage s d ts st⟩
    rw [handleSubmit_calls s d ts st w (by rw [hsel]; exact hg), hsel]
  · intro hg hp
    have hsel : jsOrElse s.n8nGenerateWebhook s.n8nPostWebhook = s.n8nPostWebhook := by
      simp [jsOrElse, hg]
    refine ⟨(uploadPhase s d ts st).2.1, ?_, uploadPhase_calls_storage s d ts st⟩
    rw [handleSubmit_calls s d ts st w (by rw [hsel]; exact hp), hsel]
  · intro hp hg
    constructor
    · simp [handlePostToSocials, jsOrElse, hp, hg]
    constructor
    · simp [handlePostToSocials, jsOrElse, hp, hg]
    have hsel : jsOrElse s.n8nGenerateWebhook s.n8nPostWebhook = "" := by
      simp [jsOrElse, hg, hp]
    refine ⟨?_, ?_, ?_⟩ <;> simp [handleSubmit, hsel]

/-- C2 witness: with only the Generate endpoint configured, publish falls
back to it, and with both blank the creation action issues no calls. -/
theorem c2_witness :
    (handlePostToSocials ⟨"u", "k", "https://n8n.example/gen", "", "t"⟩ sampleVideo
        ⟨true, 200, ""⟩).calls
      = [.webhookPublish "https://n8n.example/gen" sampleVideo] ∧
    (handleSubmit ⟨"u", "k", "", "", "t"⟩ sampleDraft 0 .uploaded .ok).calls = [] := by
  constructor
  · exact (c2_endpoint_selection ⟨"u", "k", "https://n8n.example/gen", "", "t"⟩ sampleVideo
      ⟨true, 200, ""⟩ sampleDraft 0 .uploaded .ok).2.1 rfl (by decide)
  · exact ((c2_endpoint_selection ⟨"u", "k", "", "", "t"⟩ sampleVideo
      ⟨true, 200, ""⟩ sampleDraft 0 .uploaded .ok).2.2.2.2 rfl rfl).2.2.1

/-- C3: when a submission carries a file or preview and the storage phase
fails on a configured client, the flow still reaches webhook dispatch,
the payload's media-URL field is unpopulated (with the base64 preview as
fallback when one exists), and a successful webhook still ends the
submission in Success rather than Failed. -/
theorem c3_storage_failure_graceful (s : AppSettings) (d : CreateDraft) (ts : Nat)
    (st : StorageOutcome) (w : WebhookOutcome)
    (hurl : ¬ jsOrElse s.n8nGenerateWebhook s.n8nPostWebhook = "")
    (hmedia : (d.file.isSome || jsTruthy d.filePreview) = true)
    (hsup : getSupabase s = some ())
    (hst : ¬ st = .uploaded) :
    NetworkCall.webhookCreate (jsOrElse s.n8nGenerateWebhook s.n8nPostWebhook)
        ∈ (handleSubmit s d ts st w).calls ∧
    (handleSubmit s d ts st w).payload = some (buildPayload d none) ∧
    (buildPayload d none).file_url = none ∧
    (jsTruthy d.filePreview = true →
      (buildPayload d none).file_base64 = d.filePreview) ∧
    (w = .ok → (handleSubmit s d ts st w).outcome = .success) := by
  have hnone : (uploadPhase s d ts st).1 = none := uploadPhase_url_none s d ts st hst
  refine ⟨?_, ?_, rfl, ?_, ?_⟩
  · rw [handleSubmit_calls s d ts st w hurl]
    exact List.mem_append_right _ (List.mem_singleton.mpr rfl)
  · rw [handleSubmit_payload s d ts st w hurl, hnone]
  · intro hp
    simp [buildPayload, jsTruthy_none, hp]
  · intro hw
    subst hw
    rw [handleSubmit_outcome s d ts st .ok hurl]

/-- C3 witness: a bucket-not-found upload failure on a draft with a
cached preview still dispatches the webhook with no media URL and the
preview as base64 fallback, and the submission succeeds. -/
theorem c3_witness :
    NetworkCall.webhookCreate "https://n8n.example/gen"
        ∈ (handleSubmit sampleSettings sampleDraft 5
            (.uploadError "Bucket not found") .ok).calls ∧
    (buildPayload sampleDraft none).file_url = none ∧
    (buildPayload sampleDraft none).file_base64
      = some "data:image/png;base64,AAA" ∧
    (handleSubmit sampleSettings sampleDraft 5
        (.uploadError "Bucket not found") .ok).outcome = .success := by
  have h := c3_storage_failure_graceful sampleSettings sampleDraft 5
    (.uploadError "Bucket not found") .ok (by decide) (by decide) (by decide) (by decide)
  exact ⟨h.1, h.2.2.1, h.2.2.2.1 (by decide), h.2.2.2.2 rfl⟩

/-- C8 counterexample: a publish webhook failure with status 500 and body
"boom" surfaces only the fixed message, which carries neither the status
nor the body, contradicting the claim that both actions fail with a
WebhookError carrying status and body. -/
theorem c8_counterexample :
    (handlePostToSocials sampleSettings sampleVideo ⟨false, 500, "boom"⟩).notes
      = [.error "Failed to post to socials"] ∧
    strContains "Failed to post to socials" "500" = false ∧
    strContains "Failed to post to socials" "boom" = false := by
  decide

/-- C8 (amended): a creation-webhook failure surfaces an error carrying
the response status and body; a publish-webhook failure surfaces the
fixed message with neither. -/
theorem c8_webhook_error_reporting (s : AppSettings) (d : CreateDraft) (ts : Nat)
    (st : StorageOutcome) (status : Nat) (body : String)
    (video : VideoPost) (resp : HttpResponse)
    (hurl : ¬ jsOrElse s.n8nGenerateWebhook s.n8nPostWebhook = "")
    (hurl2 : ¬ jsOrElse s.n8nPostWebhook s.n8nGenerateWebhook = "")
    (hok : resp.ok = false) :
    ((handleSubmit s d ts st (.httpError status body)).outcome
        = .failed (submitWebhookFailMsg status body) ∧
      strContains (submitWebhookFailMsg status body) (toString status) = true ∧
      strContains (submitWebhookFailMsg status body) body = true) ∧
    (handlePostToSocials s video resp).notes
      = [.error "Failed to post to socials"] := by
  refine ⟨⟨?_, ?_, ?_⟩, ?_⟩
  · rw [handleSubmit_outcome s d ts st (.httpError status body) hurl]
  · show hasSubChars (toString status).data (submitWebhookFailMsg status body).data = true
    simp only [submitWebhookFailMsg, String.data_append, List.append_assoc]
    exact hasSubChars_append _ _ _
  · exact strContains_suffix ("Error: Webhook failed (" ++ toString status ++ "): ") body
  · simp [handlePostToSocials, hurl2, hok]

/-- C8 witness: the amended theorem at a concrete failing creation
dispatch and a concrete failing publish dispatch. -/
theorem c8_witness :
    (handleSubmit sampleSettings sampleDraft 5 .uploaded (.httpError 404 "missing")).outcome
      = .failed (submitWebhookFailMsg 404 "missing") ∧
    strContains (submitWebhookFailMsg 404 "missing") "404" = true ∧
    (handlePostToSocials sampleSettings sampleVideo ⟨false, 404, "missing"⟩).notes
      = [.error "Failed to post to socials"] := by
  have h := c8_webhook_error_reporting sampleSettings sampleDraft 5 .uploaded 404 "missing"
    sampleVideo ⟨false, 404, "missing"⟩ (by decide) (by decide) rfl
  exact ⟨h.1.1, h.1.2.1, h.2⟩

/-- C9: blurring an edited field issues no update when the buffered value
equals the row's current value, and any update it issues comes from an
existing buffer entry, an existing row, and a value that differs from the
row's current one. -/
theorem c9_blur_guard (editing : Nat → Option EditBuffer) (videos : List VideoPost)
    (videoId : Nat) (field : UpdatableField) :
    (∀ v, videos.find? (fun x => x.id = videoId) = some v →
      (editing videoId).bind (fun b => b.get field) = some (v.getField field) →
      handleFieldBlur editing videos videoId field = none) ∧
    (∀ r, handleFieldBlur editing videos videoId field = some r →
      ∃ buf val v, editing videoId = some buf ∧ buf.get field = some val ∧
        videos.find? (fun x => x.id = videoId) = some v ∧
        ¬ val = v.getField field ∧ r = (videoId, field, val)) := by
  constructor
  · intro v hfind hval
    simp only [handleFieldBlur]
    rw [hval, hfind]
    simp
  · intro r hr
    simp only [handleFieldBlur] at hr
    cases heb : editing videoId with
    | none => rw [heb] at hr; simp at hr
    | some buf =>
        rw [heb] at hr
        simp only [Option.bind] at hr
        cases hbg : buf.get field with
        | none => rw [hbg] at hr; simp at hr
        | some val =>
            rw [hbg] at hr
            cases hfind : videos.find? (fun x => x.id = videoId) with
            | none => rw [hfind] at hr; simp at hr
            | some v =>
                rw [hfind] at hr
                by_cases hne : val = v.getField field
                · simp [hne] at hr
                · simp [hne] at hr
                  exact ⟨buf, val, v, rfl, hbg, rfl, hne, hr.symm⟩

/-- C9 witness: blurring the sample row's title with an unchanged
buffered value issues no update call. -/
theorem c9_witness :
    handleFieldBlur sampleEditing [sampleVideo] 7 .post_title = none :=
  (c9_blur_guard sampleEditing [sampleVideo] 7 .post_title).1 sampleVideo
    (by decide) (by decide)

/-- C10: in any payload `handleSubmit` dispatches, the media-URL and
base64 fields are never both populated: a resolved storage URL forces the
base64 field to null, and a populated base64 field forces the URL to null
and equals the cached preview. -/
theorem c10_payload_exclusive (s : AppSettings) (d : CreateDraft) (ts : Nat)
    (st : StorageOutcome) (w : WebhookOutcome) (pl : WebhookPayload)
    (hpl : (handleSubmit s d ts st w).payload = some pl) :
    (pl.file_url.isSome = true → pl.file_base64 = none) ∧
    ¬ (pl.file_url.isSome = true ∧ pl.file_base64.isSome = true) ∧
    (pl.file_base64.isSome = true →
      pl.file_url = none ∧ pl.file_base64 = d.filePreview) := by
  have hurl : ¬ jsOrElse s.n8nGenerateWebhook s.n8nPostWebhook = "" := by
    intro hu
    simp [handleSubmit, hu] at hpl
  have hpl2 : pl = buildPayload d (uploadPhase s d ts st).1 := by
    have := handleSubmit_payload s d ts st w hurl
    rw [hpl] at this
    exact Option.some.inj this
  cases uploadPhase_url_shape s d ts st with
  | inl hnone =>
      subst hpl2
      rw [hnone]
      refine ⟨?_, ?_, ?_⟩
      · intro h
        simp [buildPayload] at h
      · intro h
        simp [buildPayload] at h
      · intro h
        refine ⟨rfl, ?_⟩
        by_cases hp : jsTruthy d.filePreview = true
        · simp [buildPayload, jsTruthy_none, hp]
        · rw [Bool.not_eq_true] at hp
          simp [buildPayload, jsTruthy_none, hp] at h
  | inr hsome =>
      obtain ⟨p, hp⟩ := hsome
      subst hpl2
      rw [hp]
      have htr : jsTruthy (some (publicUrlFor s p)) = true := by
        simp [jsTruthy, publicUrlFor_ne_empty s p]
      refine ⟨?_, ?_, ?_⟩
      · intro _
        simp [buildPayload, htr]
      · intro h
        have := h.2
        simp [buildPayload, htr] at this
      · intro h
        simp [buildPayload, htr] at h

/-- C10 witness: after a successful concrete upload the dispatched
payload has a URL and a null base64 field. -/
theorem c10_witness :
    ¬ ((buildPayload sampleDraft
          (some (publicUrlFor sampleSettings "ads/reels_5.uploaded-file"))).file_url.isSome
            = true ∧
       (buildPayload sampleDraft
          (some (publicUrlFor sampleSettings "ads/reels_5.uploaded-file"))).file_base64.isSome
            = true) :=
  (c10_payload_exclusive sampleSettings sampleDraft 5 .uploaded .ok
    (buildPayload sampleDraft
      (some (publicUrlFor sampleSettings "ads/reels_5.uploaded-file"))) (by decide)).2.1

end AdGen
